import Mathlib

/-!
Verification development for the `trap_manager` firmware-update core
(`src/lora_trap_monitor/src/httpota.cpp`).

The Upload Session Controller is the pair of HTTP handlers
`HttpOta::handleUpdateUpload` (receives multipart chunks, driven by the
upload status tag) and `HttpOta::handleUpdateDone` (sends the final
response and restarts on success), plus `HttpOta::checkAuth` and
`HttpOta::handleUpdatePage`.

The Flash Staging Sink (the platform `Update` library: `Update.begin`,
`Update.write`, `Update.end`, `Update.hasError`) is not part of the
repository; it is modelled from the spec's sink contract (section 4.2),
with its nondeterministic outcomes (allocation success, bytes accepted
per write, validation success) resolved by an explicit oracle.

Observable I/O of a handler call (responses sent, serial log lines, the
grace delay and the device restart) is recorded as a list of `Action`s,
in the order the source performs them.
-/

namespace TrapManager

/-- Upload chunk status tag, mirroring `UPLOAD_FILE_START`,
`UPLOAD_FILE_WRITE`, `UPLOAD_FILE_END`, `UPLOAD_FILE_ABORTED` of the
`HTTPUpload` structure consumed by `handleUpdateUpload`. -/
inductive UploadStatus
  | fileStart
  | fileWrite
  | fileEnd
  | fileAborted
deriving DecidableEq, Repr

/-- One upload event as delivered by the request router: the status tag
plus the metadata fields the handler reads (`filename`, `totalSize`,
`currentSize`; chunk bytes are abstracted to their count). -/
structure HTTPUpload where
  status : UploadStatus
  filename : String
  totalSize : Nat
  currentSize : Nat
deriving DecidableEq, Repr

/-- Modelled from the spec: state of the Flash Staging Sink (spec 4.2),
the abstraction of the platform `Update` library, which is not part of
this repository. `isOpen`: a writable region is reserved; `declared`:
the capacity reserved at open (the source calls `Update.begin()` with
the maximum available space); `staged`: bytes written sequentially into
the region so far; `bootable`: the region has been sealed and is marked
to be used at next restart; `hasError`: the sink's sticky error flag,
read back by `handleUpdateDone` via `Update.hasError()`. -/
structure Sink where
  isOpen : Bool
  declared : Nat
  staged : Nat
  bootable : Bool
  hasError : Bool
deriving DecidableEq, Repr

/-- The sink before any session: no region open, no error recorded. -/
def Sink.init : Sink :=
  { isOpen := false, declared := 0, staged := 0, bootable := false, hasError := false }

/-- Oracle resolving the sink's nondeterministic outcomes for one event:
whether allocation succeeds (`beginOk`) and the capacity reserved
(`cap`) for a start event, how many bytes the sink accepts (`accept`)
for a write event, and whether validation succeeds (`sealOk`) for an
end/abort event. -/
structure SinkOracle where
  beginOk : Bool
  cap : Nat
  accept : Nat
  sealOk : Bool
deriving DecidableEq, Repr

/-- Modelled from the spec: `Update.begin()` / sink `open` (spec 4.2):
reserves a writable region sized to the available free area; must not
partially reserve and partially fail. On success the region is open with
nothing staged and any previous error is cleared; on allocation failure
the error flag is recorded and no region is open. -/
def Update_begin (o : SinkOracle) (s : Sink) : Sink × Bool :=
  if o.beginOk then
    ({ s with isOpen := true, declared := o.cap, staged := 0, hasError := false }, true)
  else
    ({ s with isOpen := false, hasError := true }, false)

/-- Modelled from the spec: `Update.write(buf, len)` / sink `write`
(spec 4.2): appends bytes sequentially to the open region and returns
the actual number accepted, which may be less than requested under
resource pressure and never exceeds the remaining capacity. With no open
region or a recorded error, nothing is written and 0 is returned. -/
def Update_write (o : SinkOracle) (len : Nat) (s : Sink) : Sink × Nat :=
  if s.hasError ∨ s.isOpen = false then (s, 0)
  else
    let w := min (min o.accept len) (s.declared - s.staged)
    ({ s with staged := s.staged + w }, w)

/-- Modelled from the spec: `Update.end(evenIfRemaining)`, the sink's
finalize entry point. With no open region or an error already recorded
it reports failure and changes nothing. With the flag clear — the
source's abort path `Update.end()` is the only such caller — the open
region is discarded: released (closed, with the error recorded for
diagnostics) without making any boot-time change, as spec 4.2's
`discard` requires. With the flag set, validation runs (`sealOk`): on
success the region is sealed — closed and marked bootable for next
restart (sink `seal` of spec 4.2); on failure the region is closed with
an error recorded and no bootable change. -/
def Update_end (o : SinkOracle) (evenIfRemaining : Bool) (s : Sink) : Sink × Bool :=
  if s.hasError ∨ s.isOpen = false then (s, false)
  else if evenIfRemaining = false then
    ({ s with isOpen := false, hasError := true }, false)
  else if o.sealOk then
    ({ s with isOpen := false, bootable := true }, true)
  else
    ({ s with isOpen := false, hasError := true }, false)

/-- Modelled from the spec: `Update.hasError()`, the sticky error flag
consulted by `handleUpdateDone`. -/
def Update_hasError (s : Sink) : Bool := s.hasError

/-- One observable action performed by a handler, in source order:
`challenge` is `server.requestAuthentication()`, `send` is
`server.send(code, "text/plain" or "text/html", body)`, `logLine` and
`printError` are serial diagnostics (`Serial.print…` and
`Update.printError(Serial)`), `delayMs` is `delay(n)`, `restart` is
`ESP.restart()`, `yield` is the trailing `yield()`. -/
inductive Action
  | challenge
  | send (code : Nat) (body : String)
  | logLine (msg : String)
  | printError
  | delayMs (n : Nat)
  | restart
  | yield
deriving DecidableEq, Repr

/-- Persistent controller state across handler invocations: `written` is
the function-local `static size_t written` counter of
`handleUpdateUpload` (the session's `bytesWritten`), `sink` the state of
the global `Update` object. -/
structure OtaState where
  written : Nat
  sink : Sink
deriving DecidableEq, Repr

/-- Controller state at boot: counter zero, pristine sink. -/
def OtaState.init : OtaState := { written := 0, sink := Sink.init }

/-- `HttpOta::checkAuth`: `authenticated` is the result of
`server.authenticate(UPDATE_USER, UPDATE_PASS)` (credential comparison
is out of core scope). On failure it issues the authentication challenge
and reports false, so the calling handler returns at once. -/
def checkAuth (authenticated : Bool) : Bool × List Action :=
  if authenticated then (true, []) else (false, [Action.challenge])

/-- `HttpOta::handleUpdateUpload`: the per-chunk entry point of the
Upload Session Controller. Mirrors the source branch for branch: auth
guard; on `UPLOAD_FILE_START` reset `written` to 0 and call
`Update.begin()`, logging the error on failure; on `UPLOAD_FILE_WRITE`
call `Update.write`, add the returned count to `written`, and log a
mismatch when the count differs from the offered `currentSize`; on
`UPLOAD_FILE_END` call `Update.end(true)` and log success or the error;
on `UPLOAD_FILE_ABORTED` call `Update.end()` (flag defaulted to false)
and log the abort; finally `yield()`. -/
def handleUpdateUpload (o : SinkOracle) (authenticated : Bool) (upload : HTTPUpload)
    (st : OtaState) : OtaState × List Action :=
  let auth := checkAuth authenticated
  if auth.1 = false then (st, auth.2)
  else
    let acts0 := [Action.logLine "[OTA] Uploading firmware...",
      Action.logLine ("[OTA] Upload: " ++ upload.filename ++ ", size="
        ++ toString upload.totalSize)]
    match upload.status with
    | UploadStatus.fileStart =>
        let st1 : OtaState := { st with written := 0 }
        let r := Update_begin o st1.sink
        let errActs := if r.2 = false then [Action.printError] else []
        ({ st1 with sink := r.1 },
          acts0 ++ errActs
            ++ [Action.logLine ("[OTA] Start: " ++ upload.filename ++ ", size="
                  ++ toString upload.totalSize),
                Action.yield])
    | UploadStatus.fileWrite =>
        let r := Update_write o upload.currentSize st.sink
        let st1 : OtaState := { st with written := st.written + r.2, sink := r.1 }
        let mismatchActs :=
          if r.2 ≠ upload.currentSize then [Action.logLine "[OTA] Write mismatch"] else []
        (st1, acts0 ++ mismatchActs ++ [Action.yield])
    | UploadStatus.fileEnd =>
        let r := Update_end o true st.sink
        let endActs :=
          if r.2 then
            [Action.logLine ("[OTA] Success: " ++ toString st.written
              ++ " bytes written, rebooting...")]
          else [Action.printError]
        ({ st with sink := r.1 }, acts0 ++ endActs ++ [Action.yield])
    | UploadStatus.fileAborted =>
        let r := Update_end o false st.sink
        ({ st with sink := r.1 },
          acts0 ++ [Action.logLine "[OTA] Aborted", Action.yield])

/-- `HttpOta::handleUpdateDone`: runs when the POST body is fully
received. Auth guard; if `Update.hasError()` it sends the plain-text
failure message; otherwise it sends the plain-text success message,
sleeps 500 ms so the response can flush, and restarts the device. -/
def handleUpdateDone (authenticated : Bool) (st : OtaState) : OtaState × List Action :=
  let auth := checkAuth authenticated
  if auth.1 = false then (st, auth.2)
  else if Update_hasError st.sink then
    (st, [Action.send 200 "Update FAILED"])
  else
    (st, [Action.send 200 "Update OK. Rebooting...", Action.delayMs 500, Action.restart])

/-- The upload form page body served by `handleUpdatePage`. -/
def updateFormHtml : String :=
  "<!doctype html><html><head><meta name='viewport' content='width=device-width,initial-scale=1'>"
    ++ "<title>Upload firmware</title></head><body>"
    ++ "<h2>Upload new firmware (.bin)</h2>"
    ++ "<form method='POST' action='/update' enctype='multipart/form-data'>"
    ++ "<input type='file' name='firmware' accept='.bin'>"
    ++ "<input type='submit' value='Update'>"
    ++ "</form>"
    ++ "</body></html>"

/-- `HttpOta::handleUpdatePage`: GET /update. Auth guard, then the
upload form. -/
def handleUpdatePage (authenticated : Bool) (st : OtaState) : OtaState × List Action :=
  let auth := checkAuth authenticated
  if auth.1 = false then (st, auth.2)
  else (st, [Action.send 200 updateFormHtml])

/-- Runs a sequence of authenticated upload events through
`handleUpdateUpload`, threading the controller state and concatenating
the action traces in order. -/
def runUpload (events : List (SinkOracle × HTTPUpload)) (st : OtaState) :
    OtaState × List Action :=
  match events with
  | [] => (st, [])
  | e :: rest =>
      let r := handleUpdateUpload e.1 true e.2 st
      let r2 := runUpload rest r.1
      (r2.1, r.2 ++ r2.2)

/-- A start event: `onStart(filename, declaredSize)`. -/
def startEvent (fn : String) (sz : Nat) : HTTPUpload :=
  { status := UploadStatus.fileStart, filename := fn, totalSize := sz, currentSize := 0 }

/-- A data event offering `len` bytes: `onData(buffer, len)`. -/
def writeEvent (fn : String) (sz len : Nat) : HTTPUpload :=
  { status := UploadStatus.fileWrite, filename := fn, totalSize := sz, currentSize := len }

/-- A finish event: `onEnd()`. -/
def endEvent (fn : String) (sz : Nat) : HTTPUpload :=
  { status := UploadStatus.fileEnd, filename := fn, totalSize := sz, currentSize := 0 }

/-- An abort event: `onAbort()`. -/
def abortEvent (fn : String) (sz : Nat) : HTTPUpload :=
  { status := UploadStatus.fileAborted, filename := fn, totalSize := sz, currentSize := 0 }

/-- Runs a list of data chunks, each given as (bytes the sink will
accept, bytes offered), through `handleUpdateUpload`, keeping only the
controller state. -/
def runWrites (chunks : List (Nat × Nat)) (st : OtaState) : OtaState :=
  match chunks with
  | [] => st
  | c :: rest =>
      runWrites rest
        (handleUpdateUpload { beginOk := true, cap := 0, accept := c.1, sealOk := true }
          true (writeEvent "fw.bin" 0 c.2) st).1

/-- The same sequence of sink `write` calls as `runWrites`, performed
directly on the sink, returning the list of written counts each call
returned — the instrumentation needed to state the spec's byte
accounting property. -/
def sinkWriteRun (chunks : List (Nat × Nat)) (s : Sink) : Sink × List Nat :=
  match chunks with
  | [] => (s, [])
  | c :: rest =>
      let r := Update_write { beginOk := true, cap := 0, accept := c.1, sealOk := true } c.2 s
      let r2 := sinkWriteRun rest r.1
      (r2.1, r.2 :: r2.2)

/-- Spec-level abstraction (spec section 3) of the `Completed` terminal
session status: the region was sealed successfully — marked bootable,
closed, and no error recorded. The source keeps no explicit status
variable; this is the predicate a `Completed` session satisfies. -/
def isCompleted (s : Sink) : Bool :=
  s.bootable && !s.hasError && !s.isOpen

/-- Event sequence of the nominal-upload scenario (spec section 8):
`onStart("fw.bin", 1024)`, two 512-byte chunks fully accepted by the
sink, `onEnd()` with successful validation. The region capacity the
sink reserves (4096 here) plays the role of the maximum available
space passed to `Update.begin()`. -/
def fullUploadEvents : List (SinkOracle × HTTPUpload) :=
  [({ beginOk := true, cap := 4096, accept := 0, sealOk := true }, startEvent "fw.bin" 1024),
   ({ beginOk := true, cap := 4096, accept := 512, sealOk := true }, writeEvent "fw.bin" 1024 512),
   ({ beginOk := true, cap := 4096, accept := 512, sealOk := true }, writeEvent "fw.bin" 1024 512),
   ({ beginOk := true, cap := 4096, accept := 0, sealOk := true }, endEvent "fw.bin" 1024)]

/-- Controller state after running the nominal-upload scenario from
boot. -/
def fullUploadFinal : OtaState := (runUpload fullUploadEvents OtaState.init).1

/-- Controller state after a start event whose allocation failed from
boot: counter reset, no region open, error flag set. -/
def failedAllocState : OtaState :=
  { written := 0,
    sink := { isOpen := false, declared := 0, staged := 0,
              bootable := false, hasError := true } }

/-! Helper lemmas shared by the claim theorems. -/

/-- One data-chunk step of the controller, as a record update: the
returned count is added to `written` and the sink advances by the
corresponding `write`. -/
theorem handleUpdateUpload_write_fst (o : SinkOracle) (fn : String) (ts len : Nat)
    (st : OtaState) :
    (handleUpdateUpload o true (writeEvent fn ts len) st).1
      = { st with written := st.written + (Update_write o len st.sink).2,
                  sink := (Update_write o len st.sink).1 } := rfl

/-- A sink `write` changes nothing but the staged byte count. -/
theorem Update_write_preserves (o : SinkOracle) (len : Nat) (s : Sink) :
    ((Update_write o len s).1).isOpen = s.isOpen
    ∧ ((Update_write o len s).1).hasError = s.hasError
    ∧ ((Update_write o len s).1).bootable = s.bootable
    ∧ ((Update_write o len s).1).declared = s.declared := by
  unfold Update_write
  split
  · exact ⟨rfl, rfl, rfl, rfl⟩
  · exact ⟨rfl, rfl, rfl, rfl⟩

/-- A sink `write` never returns more than the number of bytes
offered. -/
theorem Update_write_le (o : SinkOracle) (len : Nat) (s : Sink) :
    (Update_write o len s).2 ≤ len := by
  unfold Update_write
  split
  · exact Nat.zero_le _
  · exact le_trans (min_le_left _ _) (min_le_right _ _)

/-- Running a chunk list adds exactly the sum of the counts the sink
returned to `written`, and drives the sink through the same sequence of
writes as `sinkWriteRun`. -/
theorem runWrites_written_sink (chunks : List (Nat × Nat)) (st : OtaState) :
    (runWrites chunks st).written = st.written + ((sinkWriteRun chunks st.sink).2).sum
    ∧ (runWrites chunks st).sink = (sinkWriteRun chunks st.sink).1 := by
  induction chunks generalizing st with
  | nil => exact ⟨rfl, rfl⟩
  | cons c rest ih =>
      have hstep := handleUpdateUpload_write_fst
        { beginOk := true, cap := 0, accept := c.1, sealOk := true } "fw.bin" 0 c.2 st
      have h := ih { st with
        written := st.written
          + (Update_write { beginOk := true, cap := 0, accept := c.1, sealOk := true } c.2 st.sink).2,
        sink := (Update_write { beginOk := true, cap := 0, accept := c.1, sealOk := true } c.2 st.sink).1 }
      constructor
      · show (runWrites rest _).written = _
        rw [hstep, h.1]
        show _ = st.written + (List.sum (_ :: _))
        rw [List.sum_cons]
        dsimp only
        omega
      · show (runWrites rest _).sink = _
        rw [hstep, h.2]
        rfl

/-- The counts a chunk sequence draws from the sink sum to at most the
bytes offered. -/
theorem sinkWriteRun_sum_le (chunks : List (Nat × Nat)) (s : Sink) :
    ((sinkWriteRun chunks s).2).sum ≤ (chunks.map Prod.snd).sum := by
  induction chunks generalizing s with
  | nil => exact Nat.le_refl 0
  | cons c rest ih =>
      show ((_ : Nat) :: _).sum ≤ _
      rw [List.sum_cons, List.map_cons, List.sum_cons]
      exact Nat.add_le_add (Update_write_le _ _ _) (ih _)

/-- Running data chunks leaves every sink field but the staged count
unchanged. -/
theorem runWrites_preserves (chunks : List (Nat × Nat)) (st : OtaState) :
    (runWrites chunks st).sink.isOpen = st.sink.isOpen
    ∧ (runWrites chunks st).sink.hasError = st.sink.hasError
    ∧ (runWrites chunks st).sink.bootable = st.sink.bootable
    ∧ (runWrites chunks st).sink.declared = st.sink.declared := by
  induction chunks generalizing st with
  | nil => exact ⟨rfl, rfl, rfl, rfl⟩
  | cons c rest ih =>
      have hstep := handleUpdateUpload_write_fst
        { beginOk := true, cap := 0, accept := c.1, sealOk := true } "fw.bin" 0 c.2 st
      have hw := Update_write_preserves
        { beginOk := true, cap := 0, accept := c.1, sealOk := true } c.2 st.sink
      have h := ih { st with
        written := st.written
          + (Update_write { beginOk := true, cap := 0, accept := c.1, sealOk := true } c.2 st.sink).2,
        sink := (Update_write { beginOk := true, cap := 0, accept := c.1, sealOk := true } c.2 st.sink).1 }
      show (runWrites rest _).sink.isOpen = _ ∧ (runWrites rest _).sink.hasError = _
        ∧ (runWrites rest _).sink.bootable = _ ∧ (runWrites rest _).sink.declared = _
      rw [hstep]
      exact ⟨h.1.trans hw.1, h.2.1.trans hw.2.1, h.2.2.1.trans hw.2.2.1, h.2.2.2.trans hw.2.2.2⟩

/-! Claim theorems. -/

/-- C6: a request to any /update route (the GET form page, the POST
upload chunk handler, or the POST done handler) with missing or wrong
credentials produces exactly the authentication challenge and leaves
the controller and sink state untouched, so no onStart/onData/onEnd
processing is reached. -/
theorem update_routes_require_auth (o : SinkOracle) (u : HTTPUpload) (st : OtaState) :
    handleUpdateUpload o false u st = (st, [Action.challenge])
    ∧ handleUpdateDone false st = (st, [Action.challenge])
    ∧ handleUpdatePage false st = (st, [Action.challenge]) :=
  ⟨rfl, rfl, rfl⟩

/-- C1: on an authenticated POST /update completion, if no sink error
was recorded the done handler sends the plain-text success message,
waits, and restarts — in that order; if an error was recorded it sends
the plain-text failure message and never restarts; in every trace a
restart is preceded by a sent response. -/
theorem done_responds_then_restarts (st : OtaState) :
    (st.sink.hasError = false →
      handleUpdateDone true st
        = (st, [Action.send 200 "Update OK. Rebooting...", Action.delayMs 500, Action.restart]))
    ∧ (st.sink.hasError = true →
      handleUpdateDone true st = (st, [Action.send 200 "Update FAILED"])
        ∧ Action.restart ∉ (handleUpdateDone true st).2)
    ∧ (∀ i, (handleUpdateDone true st).2.get? i = some Action.restart →
        ∃ j c b, j < i ∧ (handleUpdateDone true st).2.get? j = some (Action.send c b)) := by
  cases h : st.sink.hasError with
  | false =>
      refine ⟨fun _ => ?_, fun hc => absurd hc (by simp), fun i hi => ?_⟩
      · simp [handleUpdateDone, checkAuth, Update_hasError, h]
      · have htr : (handleUpdateDone true st).2
            = [Action.send 200 "Update OK. Rebooting...", Action.delayMs 500, Action.restart] := by
          simp [handleUpdateDone, checkAuth, Update_hasError, h]
        rw [htr] at hi ⊢
        match i, hi with
        | 2, _ =>
            exact ⟨0, 200, "Update OK. Rebooting...", by omega, rfl⟩
  | true =>
      refine ⟨fun hc => absurd hc (by simp), fun _ => ⟨?_, ?_⟩, fun i hi => ?_⟩
      · simp [handleUpdateDone, checkAuth, Update_hasError, h]
      · have htr : (handleUpdateDone true st).2 = [Action.send 200 "Update FAILED"] := by
          simp [handleUpdateDone, checkAuth, Update_hasError, h]
        rw [htr]
        simp
      · have htr : (handleUpdateDone true st).2 = [Action.send 200 "Update FAILED"] := by
          simp [handleUpdateDone, checkAuth, Update_hasError, h]
        rw [htr] at hi
        match i, hi with
        | 0, hi => exact absurd hi (by simp)

/-- C1 witness: both branches of the done handler evaluated at concrete
states — a pristine sink (no error) yields the success-then-restart
trace, a sink with the error flag set yields the failure message with
no restart. -/
theorem done_responds_then_restarts_witness :
    handleUpdateDone true OtaState.init
        = (OtaState.init,
            [Action.send 200 "Update OK. Rebooting...", Action.delayMs 500, Action.restart])
    ∧ (handleUpdateDone true { written := 0, sink := { Sink.init with hasError := true } }
        = ({ written := 0, sink := { Sink.init with hasError := true } },
            [Action.send 200 "Update FAILED"])
      ∧ Action.restart
          ∉ (handleUpdateDone true { written := 0, sink := { Sink.init with hasError := true } }).2) :=
  ⟨(done_responds_then_restarts OtaState.init).1 rfl,
   (done_responds_then_restarts { written := 0, sink := { Sink.init with hasError := true } }).2.1 rfl⟩

/-- C10: the done handler's decision reads only the sink's sticky error
flag — any two states agreeing on it get the same trace — and in
particular an authenticated POST /update on a boot-fresh state, where
no session ever started or sealed and the abstracted `Completed` status
does not hold, still receives the success message and a restart. -/
theorem done_depends_only_on_error_flag :
    (∀ st1 st2 : OtaState, st1.sink.hasError = st2.sink.hasError →
      (handleUpdateDone true st1).2 = (handleUpdateDone true st2).2)
    ∧ handleUpdateDone true OtaState.init
        = (OtaState.init,
            [Action.send 200 "Update OK. Rebooting...", Action.delayMs 500, Action.restart])
    ∧ isCompleted OtaState.init.sink = false := by
  refine ⟨fun st1 st2 h => ?_, rfl, rfl⟩
  have h1 := h.trans rfl
  cases h2 : st2.sink.hasError with
  | false =>
      rw [h2] at h
      simp [handleUpdateDone, checkAuth, Update_hasError, h, h2]
  | true =>
      rw [h2] at h
      simp [handleUpdateDone, checkAuth, Update_hasError, h, h2]

/-- C10 witness: the trace-equality part applied to the boot-fresh
state and a state whose session did complete (sealed sink), which agree
on the error flag. -/
theorem done_depends_only_on_error_flag_witness :
    (handleUpdateDone true OtaState.init).2
      = (handleUpdateDone true
          { written := 1024,
            sink := { isOpen := false, declared := 4096, staged := 1024,
                      bootable := true, hasError := false } }).2 :=
  done_depends_only_on_error_flag.1 OtaState.init
    { written := 1024,
      sink := { isOpen := false, declared := 4096, staged := 1024,
                bootable := true, hasError := false } } rfl

/-- C8: the nominal scenario — onStart("fw.bin", 1024), two fully
accepted 512-byte chunks, onEnd with successful validation — ends with
the session in the `Completed` status, `bytesWritten` equal to 1024,
and the done handler sending the success response followed by the
scheduled restart. -/
theorem scenario_full_upload_success :
    isCompleted fullUploadFinal.sink = true
    ∧ fullUploadFinal.written = 1024
    ∧ handleUpdateDone true fullUploadFinal
        = (fullUploadFinal,
            [Action.send 200 "Update OK. Rebooting...", Action.delayMs 500, Action.restart]) :=
  ⟨rfl, rfl, rfl⟩

/-- C3: after a successful onStart, a sequence of onData chunks, and an
onEnd, the `written` counter equals the sum of the written counts the
sink returned for those chunks, and is bounded by the total bytes
offered in them. -/
theorem bytes_written_accounting (fn : String) (sz cap : Nat) (chunks : List (Nat × Nat))
    (sealOk : Bool) (st0 : OtaState) :
    ((handleUpdateUpload { beginOk := true, cap := cap, accept := 0, sealOk := sealOk } true
        (endEvent fn sz)
        (runWrites chunks
          (handleUpdateUpload { beginOk := true, cap := cap, accept := 0, sealOk := sealOk } true
            (startEvent fn sz) st0).1)).1).written
      = ((sinkWriteRun chunks
          ((handleUpdateUpload { beginOk := true, cap := cap, accept := 0, sealOk := sealOk } true
            (startEvent fn sz) st0).1).sink).2).sum
    ∧ ((handleUpdateUpload { beginOk := true, cap := cap, accept := 0, sealOk := sealOk } true
        (endEvent fn sz)
        (runWrites chunks
          (handleUpdateUpload { beginOk := true, cap := cap, accept := 0, sealOk := sealOk } true
            (startEvent fn sz) st0).1)).1).written
      ≤ (chunks.map Prod.snd).sum := by
  have hstart : ((handleUpdateUpload
      { beginOk := true, cap := cap, accept := 0, sealOk := sealOk } true
      (startEvent fn sz) st0).1).written = 0 := rfl
  have hrun := runWrites_written_sink chunks
    (handleUpdateUpload { beginOk := true, cap := cap, accept := 0, sealOk := sealOk } true
      (startEvent fn sz) st0).1
  have hend : ((handleUpdateUpload
      { beginOk := true, cap := cap, accept := 0, sealOk := sealOk } true (endEvent fn sz)
      (runWrites chunks
        (handleUpdateUpload { beginOk := true, cap := cap, accept := 0, sealOk := sealOk } true
          (startEvent fn sz) st0).1)).1).written
      = (runWrites chunks
          (handleUpdateUpload { beginOk := true, cap := cap, accept := 0, sealOk := sealOk } true
            (startEvent fn sz) st0).1).written := rfl
  constructor
  · rw [hend, hrun.1, hstart, Nat.zero_add]
  · rw [hend, hrun.1, hstart, Nat.zero_add]
    exact sinkWriteRun_sum_le _ _

/-- C4: a start event always resets `written` to 0 — whatever the
previous session left behind and whether or not the sink allocation
succeeds (the oracle is arbitrary) — and every other event can only
increase `written`, so the counter is reset exactly at the start
transition and is otherwise non-decreasing. -/
theorem bytesWritten_reset_and_monotone :
    (∀ (o : SinkOracle) (fn : String) (ts cs : Nat) (st : OtaState),
      ((handleUpdateUpload o true
        { status := UploadStatus.fileStart, filename := fn, totalSize := ts, currentSize := cs }
        st).1).written = 0)
    ∧ (∀ (o : SinkOracle) (u : HTTPUpload) (st : OtaState),
        u.status ≠ UploadStatus.fileStart →
        st.written ≤ ((handleUpdateUpload o true u st).1).written) := by
  refine ⟨fun o fn ts cs st => rfl, fun o u st h => ?_⟩
  obtain ⟨s, fn, ts, cs⟩ := u
  cases s with
  | fileStart => exact absurd rfl h
  | fileWrite => exact Nat.le_add_right _ _
  | fileEnd => exact Nat.le_refl _
  | fileAborted => exact Nat.le_refl _

/-- C4 witness: the reset part at a non-zero previous counter with a
failing allocation, and the monotonicity part at an end event. -/
theorem bytesWritten_reset_and_monotone_witness :
    ((handleUpdateUpload { beginOk := false, cap := 0, accept := 0, sealOk := true } true
        { status := UploadStatus.fileStart, filename := "fw.bin", totalSize := 1024,
          currentSize := 0 }
        { written := 777, sink := Sink.init }).1).written = 0
    ∧ ({ written := 777, sink := Sink.init } : OtaState).written
        ≤ ((handleUpdateUpload { beginOk := true, cap := 0, accept := 0, sealOk := true } true
            (endEvent "fw.bin" 1024) { written := 777, sink := Sink.init }).1).written :=
  ⟨bytesWritten_reset_and_monotone.1 _ "fw.bin" 1024 0 _,
   bytesWritten_reset_and_monotone.2 _ (endEvent "fw.bin" 1024)
     { written := 777, sink := Sink.init } (by decide)⟩

/-- C5: when the sink accepts fewer bytes than a data chunk offered,
only the accepted count is added to `written`, the session is not
aborted — the region stays open and no error flag is raised, so further
chunks are still accepted — and the mismatch is logged. -/
theorem partial_write_lenient (o : SinkOracle) (fn : String) (ts len : Nat) (st : OtaState)
    (h : (Update_write o len st.sink).2 < len) :
    ((handleUpdateUpload o true (writeEvent fn ts len) st).1).written
        = st.written + (Update_write o len st.sink).2
    ∧ ((handleUpdateUpload o true (writeEvent fn ts len) st).1).sink.isOpen = st.sink.isOpen
    ∧ ((handleUpdateUpload o true (writeEvent fn ts len) st).1).sink.hasError = st.sink.hasError
    ∧ Action.logLine "[OTA] Write mismatch"
        ∈ (handleUpdateUpload o true (writeEvent fn ts len) st).2 := by
  refine ⟨rfl, (Update_write_preserves o len st.sink).1, (Update_write_preserves o len st.sink).2.1, ?_⟩
  have hne : (Update_write o len st.sink).2 ≠ len := Nat.ne_of_lt h
  simp [handleUpdateUpload, checkAuth, writeEvent, hne]

/-- C5 witness: the spec's scenario — after a fully accepted 512-byte
chunk (`written = 512`, 512 bytes staged), a 512-byte chunk of which
the sink accepts only 400 leaves `written = 912`, the region open, no
error, and the mismatch logged. -/
theorem partial_write_lenient_witness :
    ((handleUpdateUpload { beginOk := true, cap := 4096, accept := 400, sealOk := true } true
        (writeEvent "fw.bin" 1024 512)
        { written := 512,
          sink := { isOpen := true, declared := 4096, staged := 512,
                    bootable := false, hasError := false } }).1).written
      = 512 + (Update_write { beginOk := true, cap := 4096, accept := 400, sealOk := true } 512
          { isOpen := true, declared := 4096, staged := 512,
            bootable := false, hasError := false }).2
    ∧ ((handleUpdateUpload { beginOk := true, cap := 4096, accept := 400, sealOk := true } true
        (writeEvent "fw.bin" 1024 512)
        { written := 512,
          sink := { isOpen := true, declared := 4096, staged := 512,
                    bootable := false, hasError := false } }).1).written = 912 := by
  refine ⟨(partial_write_lenient _ "fw.bin" 1024 512 _ (by decide)).1, rfl⟩

/-- An end event, as a record update: the sink is finalized by
`Update.end(true)` and `written` is untouched. -/
theorem handleUpdateUpload_end_fst (o : SinkOracle) (fn : String) (sz : Nat) (st : OtaState) :
    (handleUpdateUpload o true (endEvent fn sz) st).1
      = { st with sink := (Update_end o true st.sink).1 } := rfl

/-- Finalizing a sink whose error flag is already set reports failure
and changes nothing. -/
theorem Update_end_hasError (o : SinkOracle) (flag : Bool) (s : Sink)
    (h : s.hasError = true) : Update_end o flag s = (s, false) := by
  simp [Update_end, h]

/-- C7: when allocation fails at the start event (`beginOk = false`),
the error is recorded and logged but the handler keeps processing: any
subsequent chunks leave the error flag set, the end event fails and
logs the error, and the done handler then sends the failure message and
never restarts. -/
theorem alloc_failure_lenient (fn : String) (sz cap : Nat) (chunks : List (Nat × Nat))
    (sealOk : Bool) (st0 st1 st2 st3 : OtaState)
    (h1 : st1 = (handleUpdateUpload
      { beginOk := false, cap := cap, accept := 0, sealOk := sealOk } true
      (startEvent fn sz) st0).1)
    (h2 : st2 = runWrites chunks st1)
    (h3 : st3 = (handleUpdateUpload
      { beginOk := false, cap := cap, accept := 0, sealOk := sealOk } true
      (endEvent fn sz) st2).1) :
    st1.sink.hasError = true
    ∧ Action.printError ∈ (handleUpdateUpload
        { beginOk := false, cap := cap, accept := 0, sealOk := sealOk } true
        (startEvent fn sz) st0).2
    ∧ st2.sink.hasError = true
    ∧ st3.sink.hasError = true
    ∧ Action.printError ∈ (handleUpdateUpload
        { beginOk := false, cap := cap, accept := 0, sealOk := sealOk } true
        (endEvent fn sz) st2).2
    ∧ handleUpdateDone true st3 = (st3, [Action.send 200 "Update FAILED"])
    ∧ Action.restart ∉ (handleUpdateDone true st3).2 := by
  have hs1 : st1.sink.hasError = true := by rw [h1]; rfl
  have hs2 : st2.sink.hasError = true := by
    rw [h2]; exact (runWrites_preserves chunks st1).2.1.trans hs1
  have hendv := Update_end_hasError
    { beginOk := false, cap := cap, accept := 0, sealOk := sealOk } true st2.sink hs2
  have hs3 : st3.sink.hasError = true := by
    rw [h3, handleUpdateUpload_end_fst]
    show ((Update_end _ true st2.sink).1).hasError = true
    rw [hendv]
    exact hs2
  refine ⟨hs1, ?_, hs2, hs3, ?_, ?_, ?_⟩
  · simp [handleUpdateUpload, checkAuth, startEvent, Update_begin]
  · simp [handleUpdateUpload, checkAuth, endEvent, hendv]
  · simp [handleUpdateDone, checkAuth, Update_hasError, hs3]
  · simp [handleUpdateDone, checkAuth, Update_hasError, hs3]

/-- C7 witness: the theorem evaluated from boot with one 512-byte chunk
after the failed allocation; the intermediate states all carry the
error flag. -/
theorem alloc_failure_lenient_witness :
    failedAllocState.sink.hasError = true
    ∧ handleUpdateDone true failedAllocState
      = (failedAllocState, [Action.send 200 "Update FAILED"]) := by
  have h := alloc_failure_lenient "fw.bin" 1024 0 [(512, 512)] true OtaState.init
    failedAllocState failedAllocState failedAllocState rfl rfl rfl
  exact ⟨h.1, h.2.2.2.2.2.1⟩

/-- C9: the controller finalizes the end event with the force flag set
(`Update.end(true)`), and consequently a session whose staged bytes
fall short of the declared region capacity is still sealed when
validation passes — marked bootable — whereas the same finalize with
the flag clear would have failed on the incomplete region. -/
theorem onEnd_uses_force_flag (o : SinkOracle) (fn : String) (ts cs : Nat) (st : OtaState) :
    ((handleUpdateUpload o true
        { status := UploadStatus.fileEnd, filename := fn, totalSize := ts, currentSize := cs }
        st).1).sink = (Update_end o true st.sink).1
    ∧ (o.sealOk = true → st.sink.isOpen = true → st.sink.hasError = false →
        st.sink.staged < st.sink.declared →
        ((handleUpdateUpload o true
            { status := UploadStatus.fileEnd, filename := fn, totalSize := ts,
              currentSize := cs } st).1).sink.bootable = true
        ∧ (Update_end o false st.sink).2 = false) := by
  refine ⟨rfl, fun hseal hopen herr hlt => ⟨?_, ?_⟩⟩
  · show ((Update_end o true st.sink).1).bootable = true
    simp [Update_end, hopen, herr, hseal]
  · simp [Update_end, hopen, herr, hlt]

/-- C9 witness: a session that staged 912 of a 1024-byte region is
sealed bootable by the end event, while the non-forced finalize on the
same sink reports failure. -/
theorem onEnd_uses_force_flag_witness :
    ((handleUpdateUpload { beginOk := true, cap := 1024, accept := 0, sealOk := true } true
        { status := UploadStatus.fileEnd, filename := "fw.bin", totalSize := 1024,
          currentSize := 0 }
        { written := 912,
          sink := { isOpen := true, declared := 1024, staged := 912,
                    bootable := false, hasError := false } }).1).sink.bootable = true
    ∧ (Update_end { beginOk := true, cap := 1024, accept := 0, sealOk := true } false
        { isOpen := true, declared := 1024, staged := 912,
          bootable := false, hasError := false }).2 = false :=
  (onEnd_uses_force_flag { beginOk := true, cap := 1024, accept := 0, sealOk := true }
    "fw.bin" 1024 0
    { written := 912,
      sink := { isOpen := true, declared := 1024, staged := 912,
                bootable := false, hasError := false } }).2 rfl rfl rfl (by decide)

/-- C2: sessions that do not complete through a successful seal leave
the bootable mark unchanged — an abort event at any point always
discards the in-progress region (the error-free session's region is
released, closed, with no bootable change, for any staged byte count);
an end event whose validation fails never changes the bootable mark;
and start and data events never change it, so a session that never
reaches an end event leaves no bootable change either. -/
theorem abandoned_sessions_not_bootable :
    (∀ (o : SinkOracle) (fn : String) (ts cs : Nat) (st : OtaState),
      ((handleUpdateUpload o true
          { status := UploadStatus.fileAborted, filename := fn, totalSize := ts,
            currentSize := cs } st).1).sink.bootable = st.sink.bootable
      ∧ (st.sink.hasError = false →
          ((handleUpdateUpload o true
            { status := UploadStatus.fileAborted, filename := fn, totalSize := ts,
              currentSize := cs } st).1).sink.isOpen = false))
    ∧ (∀ (b : Bool) (cap acc : Nat) (fn : String) (ts cs : Nat) (st : OtaState),
        ((handleUpdateUpload { beginOk := b, cap := cap, accept := acc, sealOk := false } true
          { status := UploadStatus.fileEnd, filename := fn, totalSize := ts,
            currentSize := cs } st).1).sink.bootable = st.sink.bootable)
    ∧ (∀ (o : SinkOracle) (u : HTTPUpload) (st : OtaState),
        u.status = UploadStatus.fileStart ∨ u.status = UploadStatus.fileWrite →
        ((handleUpdateUpload o true u st).1).sink.bootable = st.sink.bootable) := by
  refine ⟨fun o fn ts cs st => ⟨?_, fun herr => ?_⟩, fun b cap acc fn ts cs st => ?_,
    fun o u st h => ?_⟩
  · show ((Update_end o false st.sink).1).bootable = st.sink.bootable
    cases herr : st.sink.hasError with
    | true => simp [Update_end, herr]
    | false =>
        cases hopen : st.sink.isOpen with
        | false => simp [Update_end, herr, hopen]
        | true => simp [Update_end, herr, hopen]
  · show ((Update_end o false st.sink).1).isOpen = false
    cases hopen : st.sink.isOpen with
    | false => simp [Update_end, herr, hopen]
    | true => simp [Update_end, herr, hopen]
  · show ((Update_end { beginOk := b, cap := cap, accept := acc, sealOk := false } true
        st.sink).1).bootable = st.sink.bootable
    cases herr : st.sink.hasError with
    | true => simp [Update_end, herr]
    | false =>
        cases hopen : st.sink.isOpen with
        | false => simp [Update_end, herr, hopen]
        | true => simp [Update_end, herr, hopen]
  · obtain ⟨s, fn, ts, cs⟩ := u
    cases s with
    | fileStart =>
        show ((Update_begin o st.sink).1).bootable = st.sink.bootable
        unfold Update_begin
        split
        · rfl
        · rfl
    | fileWrite => exact (Update_write_preserves o cs st.sink).2.2.1
    | fileEnd => exact absurd h (by simp)
    | fileAborted => exact absurd h (by simp)

/-- C2 witness: the three parts evaluated concretely — an abort on an
open, error-free session with 10 of 100 bytes staged, a failing seal,
and a start event. -/
theorem abandoned_sessions_not_bootable_witness :
    (((handleUpdateUpload { beginOk := true, cap := 0, accept := 0, sealOk := true } true
        { status := UploadStatus.fileAborted, filename := "fw.bin", totalSize := 100,
          currentSize := 0 }
        { written := 10,
          sink := { isOpen := true, declared := 100, staged := 10,
                    bootable := false, hasError := false } }).1).sink.bootable
      = ({ isOpen := true, declared := 100, staged := 10,
           bootable := false, hasError := false } : Sink).bootable
    ∧ ((handleUpdateUpload { beginOk := true, cap := 0, accept := 0, sealOk := true } true
        { status := UploadStatus.fileAborted, filename := "fw.bin", totalSize := 100,
          currentSize := 0 }
        { written := 10,
          sink := { isOpen := true, declared := 100, staged := 10,
                    bootable := false, hasError := false } }).1).sink.isOpen = false)
    ∧ ((handleUpdateUpload { beginOk := true, cap := 64, accept := 0, sealOk := false } true
        { status := UploadStatus.fileEnd, filename := "fw.bin", totalSize := 100,
          currentSize := 0 }
        { written := 10,
          sink := { isOpen := true, declared := 100, staged := 10,
                    bootable := false, hasError := false } }).1).sink.bootable
      = ({ isOpen := true, declared := 100, staged := 10,
           bootable := false, hasError := false } : Sink).bootable
    ∧ ((handleUpdateUpload { beginOk := true, cap := 64, accept := 0, sealOk := true } true
        (startEvent "fw.bin" 100) OtaState.init).1).sink.bootable
      = OtaState.init.sink.bootable :=
  ⟨⟨(abandoned_sessions_not_bootable.1 _ "fw.bin" 100 0
      { written := 10,
        sink := { isOpen := true, declared := 100, staged := 10,
                  bootable := false, hasError := false } }).1,
    (abandoned_sessions_not_bootable.1 _ "fw.bin" 100 0
      { written := 10,
        sink := { isOpen := true, declared := 100, staged := 10,
                  bootable := false, hasError := false } }).2 rfl⟩,
   abandoned_sessions_not_bootable.2.1 true 64 0 "fw.bin" 100 0
      { written := 10,
        sink := { isOpen := true, declared := 100, staged := 10,
                  bootable := false, hasError := false } },
   abandoned_sessions_not_bootable.2.2 _ (startEvent "fw.bin" 100) OtaState.init
      (Or.inl rfl)⟩

end TrapManager
